import Mathlib

/-!
# Verification of the currency_monitor core

Shallow embedding of the rate-normalization, spread/change-computation and
staleness-aware caching engine of the `currency_monitor` repository
(`currency_lambda.py`, `exchange.py`, `lambda.py`, `init_dynamo_table.py`),
together with proofs and refutations of the specification's claims.

Modelling conventions:
* Python `Decimal` and `float` values are modelled as exact rationals `ℚ`;
  where a claim is specifically about the numeric representation the
  predicate `IsSixDigitDecimal` captures "representable with at most six
  significant decimal digits".
* Python exceptions are modelled with `Except`: a computation that raises
  returns `.error`; an uncaught exception aborts the enclosing loop exactly
  as the monadic propagation does here.
* The DynamoDB item for a currency is a triple `(Abbr, Rate, Tstamp)`;
  the `Rate` attribute can come back from the store either as a `Decimal`
  (DynamoDB Number type) or as a `str` (DynamoDB String type), which the
  inductive `StoredRate` distinguishes because the source compares it
  against the string literal `'0.0'`.
-/

namespace CurrencyMonitor

/-- Semantic classification of a rate change, as documented by the comments in
`currency_lambda.py` (red = USD weakened, green = USD strengthened, white/no
color = unchanged) and `exchange.py` (yellow = no change, green = strong USD,
red = weaker USD). -/
inductive Change where
  | weakened
  | strengthened
  | unchanged
deriving DecidableEq, Repr

/-! ## Spread Calculator (`currency_lambda.py` lines 165-166, `lambda.py` lines 84-85)

The source computes, with `spread = spread_pct / 100`:
`usd_spread = (1/cur_rate)*(1+spread)` and `for_spread = cur_rate*(1/(1+spread))`,
and displays the unadjusted `1/cur_rate` and `cur_rate` next to them. -/

/-- Unadjusted USD-per-foreign quote `1/cur_rate` as displayed by the source. -/
def usd_per_foreign (mid : ℚ) : ℚ := 1 / mid

/-- Unadjusted foreign-per-USD quote, the mid rate itself. -/
def foreign_per_usd (mid : ℚ) : ℚ := mid

/-- `usd_spread = (1/cur_rate)*(1+spread)` with `spread = spread_pct/100`. -/
def usd_spread (mid spread_pct : ℚ) : ℚ := (1 / mid) * (1 + spread_pct / 100)

/-- `for_spread = cur_rate*(1/(1+spread))` with `spread = spread_pct/100`. -/
def for_spread (mid spread_pct : ℚ) : ℚ := mid * (1 / (1 + spread_pct / 100))

/-! ## Change Classifier, Lambda variant (`currency_lambda.py` lines 186-200) -/

/-- `change_pct = (1 - (cur_rate / old_rate)) * 100` (line 188). -/
def change_pct (cur old_rate : ℚ) : ℚ := (1 - cur / old_rate) * 100

/-- The three-way color split of `currency_lambda.py` lines 195-200, read
through the source comment's semantics: `change_pct >= 0.1` colors red
(USD weakened), `change_pct <= -0.1` colors green (USD strengthened),
otherwise white (no color, unchanged). -/
def classifyLambda (p : ℚ) : Change :=
  if p ≥ 1/10 then .weakened
  else if p ≤ -(1/10) then .strengthened
  else .unchanged

/-! ## Rate Store and the per-currency loop of `CurrencyLayer.get_rates`
(`currency_lambda.py` lines 141-220) -/

/-- The `Rate` attribute of a DynamoDB item as boto3 hands it back: a
`Decimal` when the attribute has DynamoDB Number type, a `str` when it has
String type.  The distinction matters because line 186 of
`currency_lambda.py` compares the value against the string literal `'0.0'`. -/
inductive StoredRate where
  | asString (s : String)
  | asDecimal (q : ℚ)
deriving DecidableEq, Repr

/-- The Python comparison `old == '0.0'` of line 186: true only when `old`
is the very string `'0.0'`; a `Decimal` never compares equal to a `str` in
Python, whatever its numeric value. -/
def isSentinelLiteral : StoredRate → Bool
  | .asString s => s = "0.0"
  | .asDecimal _ => false

/-- Value of a nonnegative decimal string such as `"3.67305"`, digits with an
optional single decimal point (the shapes `dynamo_update` and
`init_dynamo_table.py` write via `Decimal(str(rate))`). -/
def ratOfDecString (s : String) : ℚ :=
  match s.splitOn "." with
  | [a] => ((a.toList.foldl (fun acc c => acc * 10 + (c.toNat - 48)) 0 : ℕ) : ℚ)
  | [a, b] =>
      ((a.toList.foldl (fun acc c => acc * 10 + (c.toNat - 48)) 0 : ℕ) : ℚ) +
        ((b.toList.foldl (fun acc c => acc * 10 + (c.toNat - 48)) 0 : ℕ) : ℚ) / 10 ^ b.length
  | _ => 0

/-- `Decimal(old)` of line 186: the identity on a stored `Decimal`, and the
decimal parse of a stored string. -/
def decimalOf : StoredRate → ℚ
  | .asString s => ratOfDecString s
  | .asDecimal q => q

/-- `old_rate = cur_rate if (old == '0.0') else Decimal(old)` (line 186). -/
def old_rate (old : StoredRate) (cur : ℚ) : ℚ :=
  if isSentinelLiteral old then cur else decimalOf old

/-- Exceptions the per-currency loop body can raise: `divisionError` is the
`decimal.DivisionByZero` of a zero denominator, `storeReadError` the
`KeyError`/`NameError` escaping `dynamo_query` when `get_item` fails or the
response holds no `Item`. -/
inductive Err where
  | divisionError
  | storeReadError
deriving DecidableEq, Repr

/-- The change computation of lines 186-188 on one currency: substitute the
current rate when the stored rate is the literal string `'0.0'`, then
`change_pct = (1 - (cur_rate / old_rate)) * 100`, which raises
`decimal.DivisionByZero` when the denominator is zero. -/
def changeOf (old : StoredRate) (cur : ℚ) : Except Err ℚ :=
  let o := old_rate old cur
  if o = 0 then .error .divisionError else .ok (change_pct cur o)

/-- The Rate Store: DynamoDB items `(Abbr, Rate, Tstamp)`. -/
def Store := List (String × StoredRate × ℤ)

/-- `abbr = exch[-3:]` (line 143): the trailing three characters of the
six-letter pair code. -/
def lastThree (s : String) : String := ⟨s.data.drop (s.data.length - 3)⟩

/-- `dynamo_query` (`currency_lambda.py` lines 315-330): `get_item` on the
key, then `return response['Item']`.  When the key is absent the response
carries no `Item` and the subscript raises `KeyError`; when `get_item`
itself fails the `except` branch falls through to an unbound `response` and
raises `NameError`.  Either way the exception escapes `dynamo_query`
uncaught, modelled as `.error .storeReadError`. -/
def dynamo_query (store : Store) (abbr : String) : Except Err (StoredRate × ℤ) :=
  match store.find? (fun e => e.1 = abbr) with
  | some e => .ok e.2
  | none => .error .storeReadError

/-- The conditional cache refresh of lines 211-218: with
`time_delta = cl_ts - tstamp`, when `time_delta > 24*60*60` issue
`dynamo_update(table, abbr, cur_rate, cl_ts)` — a write of the currency
code, the current rate and the batch timestamp — otherwise do nothing. -/
def staleWrite (cl_ts tstamp : ℤ) (abbr : String) (cur : ℚ) :
    Option (String × ℚ × ℤ) :=
  if cl_ts - tstamp > 24 * 60 * 60 then some (abbr, cur, cl_ts) else none

/-- One rendered line of the lambda variant's quote block, with the
conditional Rate Store write the same iteration issues. -/
structure RateRecord where
  abbr : String
  in_usd : ℚ
  in_for : ℚ
  usd_buy : ℚ
  for_sell : ℚ
  pct : ℚ
  col : Change
  write : Option (String × ℚ × ℤ)
deriving DecidableEq, Repr

/-- The body of the `for exch, cur_rate in self.rate_dict['quotes'].items()`
loop (lines 141-218) for one pair: query the store (an uncaught exception
propagates), compute the spread-adjusted quotes — `1/cur_rate` raises on a
zero rate — the change percentage with its color, and the conditional
staleness write. -/
def processOne (store : Store) (cl_ts : ℤ) (spread_pct : ℚ) (exch : String)
    (cur : ℚ) : Except Err RateRecord :=
  match dynamo_query store (lastThree exch) with
  | .error e => .error e
  | .ok (old, tstamp) =>
      if cur = 0 then .error .divisionError
      else
        match changeOf old cur with
        | .error e => .error e
        | .ok p =>
            .ok { abbr := lastThree exch
                  in_usd := 1 / cur
                  in_for := cur
                  usd_buy := usd_spread cur spread_pct
                  for_sell := for_spread cur spread_pct
                  pct := p
                  col := classifyLambda p
                  write := staleWrite cl_ts tstamp (lastThree exch) cur }

/-- `CurrencyLayer.get_rates` over the whole quote table: the loop runs the
body on each pair in order; an exception raised by any iteration propagates
out of the loop (there is no per-entry handler), so the remaining pairs are
never evaluated. -/
def get_rates (store : Store) (cl_ts : ℤ) (spread_pct : ℚ) :
    List (String × ℚ) → Except Err (List RateRecord)
  | [] => .ok []
  | (exch, cur) :: rest =>
      match processOne store cl_ts spread_pct exch cur with
      | .error e => .error e
      | .ok r =>
          match get_rates store cl_ts spread_pct rest with
          | .error e => .error e
          | .ok rs => .ok (r :: rs)

/-! ## Change display, monitor variant (`exchange.py` lines 123-139) -/

/-- `delta = abs((1 - (cur_rate / prev_rate)) * 100)` (line 125). -/
def monitorDelta (cur prev : ℚ) : ℚ := |(1 - cur / prev) * 100|

/-- The color split of `exchange.py` lines 127-132: equal rates → yellow
(no change), `cur_rate > prev_rate` → green (strong USD, strengthened),
otherwise red (weaker USD, weakened). -/
def classifyMonitor (cur prev : ℚ) : Change :=
  if cur = prev then .unchanged
  else if cur > prev then .strengthened
  else .weakened

/-! ## Quote-Set Change Detector and polling loop (`exchange.py` lines 76-151)

The quote table arrives as a JSON object, which Python keeps as an
insertion-ordered dict; it is modelled as the association list of its
entries.  Line 91 fingerprints the table with
`sha1(str(rates['quotes']).encode("ascii")).hexdigest()`: a deterministic
digest of the serialized table.  The loop only ever compares fingerprints
for equality, and equal serializations have equal digests, so the digest is
modelled as the (deterministic, injective) serialization text itself. -/

/-- One quote table: the ordered `pair ↦ rate` entries of `rates['quotes']`. -/
def Quotes := List (String × ℚ)

/-- Canonical serialization of a quote table, standing in for
`str(rates['quotes'])`. -/
def serializeQuotes (qs : List (String × ℚ)) : String :=
  qs.foldl
    (fun acc e =>
      acc ++ e.1 ++ ": " ++ toString e.2.num ++ "/" ++ toString e.2.den ++ ", ")
    "\x7b" ++ "\x7d"

/-- The content fingerprint of line 91, modelled as the serialization it
digests. -/
def fingerprint (qs : List (String × ℚ)) : String := serializeQuotes qs

/-- The state the monitor keeps across polling iterations: `prev_hash` and
`prev_quote` (lines 101-102, 142-143). -/
structure PollState where
  prev_hash : String
  prev_quote : List (String × ℚ)
deriving DecidableEq

/-- `prev_quote[exch]` (line 124): Python dict lookup; an absent pair makes
the subscript raise `KeyError`. -/
def lookupQuote (qs : List (String × ℚ)) (exch : String) : Option ℚ :=
  (qs.find? (fun e => e.1 = exch)).map (fun e => e.2)

/-- Exceptions a monitor iteration can raise, all uncaught and fatal to the
process: `zeroDivisionError` from `1/cur_rate` (lines 110 and 138) or
`cur_rate / prev_rate` (line 125) on a zero rate, `keyError` from
`prev_quote[exch]` (line 124) when the previous table lacks the pair. -/
inductive MErr where
  | zeroDivisionError
  | keyError
deriving DecidableEq, Repr

/-- One detail line of the change display, lines 123-139 for one pair, in
the source's evaluation order: look up `prev_quote[exch]` (`KeyError` when
absent), compute `delta = abs((1 - cur_rate/prev_rate)*100)`
(`ZeroDivisionError` when the previous rate is zero), pick the color, then
print both directions — the `1/cur_rate` of line 138 raising
`ZeroDivisionError` when the current rate is zero. -/
def renderChange (prevq : List (String × ℚ)) (exch : String) (cur : ℚ) :
    Except MErr (String × ℚ × ℚ × ℚ × Change) :=
  match lookupQuote prevq exch with
  | none => .error .keyError
  | some prev =>
      if prev = 0 then .error .zeroDivisionError
      else if cur = 0 then .error .zeroDivisionError
      else .ok (exch, 1 / cur, cur, monitorDelta cur prev, classifyMonitor cur prev)

/-- The change-detail loop of lines 123-139 over the whole table: an
exception on one pair is uncaught, terminating the process — the remaining
pairs are never rendered. -/
def changeRenderLines (prevq : List (String × ℚ)) :
    List (String × ℚ) → Except MErr (List (String × ℚ × ℚ × ℚ × Change))
  | [] => .ok []
  | (exch, cur) :: rest =>
      match renderChange prevq exch cur with
      | .error e => .error e
      | .ok l =>
          match changeRenderLines prevq rest with
          | .error e => .error e
          | .ok ls => .ok (l :: ls)

/-- The first-pass print loop of lines 106-110: each pair in both quote
directions with no change figure; the `1/cur_rate` of line 110 raises
`ZeroDivisionError` on a zero rate, terminating the process mid-loop. -/
def firstRenderLines : List (String × ℚ) → Except MErr (List (String × ℚ × ℚ))
  | [] => .ok []
  | (exch, cur) :: rest =>
      if cur = 0 then .error .zeroDivisionError
      else
        match firstRenderLines rest with
        | .error e => .error e
        | .ok ls => .ok ((exch, 1 / cur, cur) :: ls)

/-- `quote_delay = (time() - quote_time) / 60` (line 95), in minutes. -/
def quote_delay (now quote_time : ℚ) : ℚ := (now - quote_time) / 60

/-- `wait_time = int(abs(interval - quote_delay))` (line 149).  Python's
`int()` truncates toward zero; the argument is an absolute value, so this is
its floor. -/
def wait_time (interval now quote_time : ℚ) : ℤ :=
  ⌊|interval - quote_delay now quote_time|⌋

/-- Everything one iteration of the `while True` loop shows and does after
the fetch: the first-pass block (each pair in both directions, no change
figure), the change-detail block, whether the changed branch was taken, and
the minutes the iteration then waits (`none` on the first pass, whose
`continue` skips straight to the next fetch). -/
structure CycleOut where
  firstRender : List (String × ℚ × ℚ)
  changeRender : List (String × ℚ × ℚ × ℚ × Change)
  changed : Bool
  waited : Option ℤ
deriving DecidableEq

/-- One iteration of `currency_layer.monitor` (lines 86-151) after the
fetch returned table `qs` stamped `quote_time`, observed at wall-clock
`now`.  State `none` models `first_pass == True`: initialize
`prev_hash`/`prev_quote` to the fetched batch, print each pair in both
directions with no change figure, and `continue` without waiting.
Otherwise compare fingerprints: on a mismatch render the change detail
against `prev_quote` and replace the state wholesale; on a match leave the
state and render nothing; in both cases wait `wait_time` minutes.  An
exception in either render loop is uncaught: the process dies before any
state replacement or wait takes effect, modelled as `.error`. -/
def monitorCycle (interval : ℚ) (now : ℚ) (st : Option PollState)
    (quote_time : ℚ) (qs : List (String × ℚ)) :
    Except MErr (Option PollState × CycleOut) :=
  let h := fingerprint qs
  match st with
  | none =>
      match firstRenderLines qs with
      | .error e => .error e
      | .ok ls =>
          .ok (some ⟨h, qs⟩,
            { firstRender := ls
              changeRender := []
              changed := false
              waited := none })
  | some prev =>
      if h ≠ prev.prev_hash then
        match changeRenderLines prev.prev_quote qs with
        | .error e => .error e
        | .ok ls =>
            .ok (some ⟨h, qs⟩,
              { firstRender := []
                changeRender := ls
                changed := true
                waited := some (wait_time interval now quote_time) })
      else
        .ok (some prev,
          { firstRender := []
            changeRender := []
            changed := false
            waited := some (wait_time interval now quote_time) })

/-! ## Six-significant-digit decimal values

`currency_lambda.py` line 62 and `init_dynamo_table.py` line 50 set
`getcontext().prec = 6`, so every `Decimal` arithmetic result there is of
the form `m · 10^e` with `|m| < 10^6`.  `exchange.py` performs its rate
arithmetic on binary floats with no decimal context at all; its operations
are modelled exactly over `ℚ`. -/

/-- `q` is representable with at most six significant decimal digits:
`q = m · 10^e` for an integer `m` with `|m| < 10^6` and an integer
exponent `e`. -/
def IsSixDigitDecimal (q : ℚ) : Prop :=
  ∃ (m : ℤ) (e : ℤ), |m| < 10 ^ 6 ∧ q = (m : ℚ) * 10 ^ e

/-! ## Theorems -/

/-- C1: The sentinel substitution of `currency_lambda.py` line 186 works only
when the stored prior rate is the very string `'0.0'`: then the change is a
defined `0%` classified unchanged.  For a numeric `Decimal` zero — the type
DynamoDB's Number attribute actually comes back as — the string comparison
`old == '0.0'` is false, `old_rate` stays `0`, and the division of line 188
raises `decimal.DivisionByZero`, contradicting the source's own comment
(lines 181-185) that the substitution is there to prevent a divide-by-zero
exception. -/
theorem changeOf_sentinel_type_dependent :
    changeOf (.asString "0.0") (3/2) = .ok 0 ∧
    classifyLambda 0 = .unchanged ∧
    changeOf (.asDecimal 0) (3/2) = .error .divisionError := by
  refine ⟨?_, ?_, ?_⟩
  · norm_num [changeOf, change_pct, old_rate, isSentinelLiteral, decimalOf]
  · norm_num [classifyLambda]
  · norm_num [changeOf, old_rate, isSentinelLiteral, decimalOf]

/-- C2, counterexample: the monitor variant does not use the ±0.1 thresholds.
With `current = 1.0005` and `previous = 1`, `change_pct = -0.05` lies in the
open interval `(-0.1, 0.1)` — "unchanged" by the claimed thresholds — yet
`exchange.py` lines 127-132 color the line green (strengthened) because the
rates are merely unequal. -/
theorem classifyMonitor_no_tolerance :
    change_pct (2001/2000) 1 = -(1/20) ∧
    (-(1/10) < -(1/20 : ℚ) ∧ -(1/20 : ℚ) < 1/10) ∧
    classifyMonitor (2001/2000) 1 = .strengthened ∧
    Change.strengthened ≠ Change.unchanged := by
  refine ⟨?_, ⟨by norm_num, by norm_num⟩, ?_, by decide⟩
  · norm_num [change_pct]
  · norm_num [classifyMonitor]

/-- C2, amended: the Lambda variant classifies `change_pct` by the ±0.1
thresholds with ties toward unchanged inside `(-0.1, 0.1)`; the monitor
variant instead classifies by direct comparison of the raw rates (equal →
unchanged, current above previous → strengthened, below → weakened) with no
tolerance band; and the spec scenario `current = 1.10`, `previous = 1.00`
yields `change_pct = -10`, classification strengthened, magnitude `10`. -/
theorem classifier_characterization :
    (∀ p : ℚ,
      (classifyLambda p = .weakened ↔ 1/10 ≤ p) ∧
      (classifyLambda p = .strengthened ↔ p ≤ -(1/10)) ∧
      (classifyLambda p = .unchanged ↔ -(1/10) < p ∧ p < 1/10)) ∧
    (∀ cur prev : ℚ,
      (classifyMonitor cur prev = .unchanged ↔ cur = prev) ∧
      (classifyMonitor cur prev = .strengthened ↔ prev < cur) ∧
      (classifyMonitor cur prev = .weakened ↔ cur < prev)) ∧
    (change_pct (11/10) 1 = -10 ∧
      classifyLambda (change_pct (11/10) 1) = .strengthened ∧
      |change_pct (11/10) 1| = 10) := by
  refine ⟨fun p => ?_, fun cur prev => ?_, ?_, ?_, ?_⟩
  · unfold classifyLambda
    split_ifs with h1 h2
    · exact ⟨⟨fun _ => h1, fun _ => rfl⟩,
        ⟨fun h => absurd h (by decide), fun h => absurd h1 (by linarith)⟩,
        ⟨fun h => absurd h (by decide), fun h => absurd h1 (by linarith [h.2])⟩⟩
    · exact ⟨⟨fun h => absurd h (by decide), fun h => absurd h1 (by linarith)⟩,
        ⟨fun _ => h2, fun _ => rfl⟩,
        ⟨fun h => absurd h (by decide), fun h => absurd h2 (by linarith [h.1])⟩⟩
    · exact ⟨⟨fun h => absurd h (by decide), fun h => absurd h1 (by linarith)⟩,
        ⟨fun h => absurd h (by decide), fun h => absurd h2 (by linarith)⟩,
        ⟨fun _ => ⟨by linarith, by linarith⟩, fun _ => rfl⟩⟩
  · unfold classifyMonitor
    split_ifs with h1 h2
    · exact ⟨⟨fun _ => h1, fun _ => rfl⟩,
        ⟨fun h => absurd h (by decide), fun h => absurd h1 (by linarith)⟩,
        ⟨fun h => absurd h (by decide), fun h => absurd h1 (by linarith)⟩⟩
    · exact ⟨⟨fun h => absurd h (by decide), fun h => absurd h h1⟩,
        ⟨fun _ => h2, fun _ => rfl⟩,
        ⟨fun h => absurd h (by decide), fun h => absurd h2 (by linarith)⟩⟩
    · exact ⟨⟨fun h => absurd h (by decide), fun h => absurd h h1⟩,
        ⟨fun h => absurd h (by decide), fun h => absurd h2 (by linarith)⟩,
        ⟨fun _ => lt_of_le_of_ne (by linarith) (fun hh => h1 hh), fun _ => rfl⟩⟩
  · norm_num [change_pct]
  · norm_num [classifyLambda, change_pct]
  · norm_num [change_pct]

/-- C3: for every positive mid rate and spread percentage in the form's
range `[0.10, 2.0]`, the spread-adjusted buy quote exceeds the unadjusted
USD-per-foreign quote, and the spread-adjusted sell quote is below the
unadjusted foreign-per-USD quote: the spread always disadvantages the
counterparty direction. -/
theorem spread_disadvantages_counterparty (mid s : ℚ)
    (hm : 0 < mid) (hlo : 1/10 ≤ s) (hhi : s ≤ 2) :
    usd_per_foreign mid < usd_spread mid s ∧
    for_spread mid s < foreign_per_usd mid := by
  have h1 : (1:ℚ) < 1 + s / 100 := by linarith
  have hinv : 0 < 1 / mid := by positivity
  constructor
  · unfold usd_per_foreign usd_spread
    nlinarith
  · unfold for_spread foreign_per_usd
    have hpos : (0:ℚ) < 1 + s / 100 := by linarith
    have hfr : 1 / (1 + s / 100) < 1 := by
      rw [div_lt_one hpos]; exact h1
    nlinarith

/-- C3, witness at `mid = 2`, `spread_pct = 1`. -/
theorem spread_disadvantages_counterparty_witness :
    usd_per_foreign 2 < usd_spread 2 1 ∧ for_spread 2 1 < foreign_per_usd 2 :=
  spread_disadvantages_counterparty 2 1 (by norm_num) (by norm_num) (by norm_num)

/-- C4: the Cache Updater issues the write `{code, current_rate, batch_as_of}`
exactly when `batch_as_of - saved_at` exceeds `86400` seconds and issues
nothing otherwise; at the boundary an age of exactly `86400` triggers no
write while `86401` does. -/
theorem staleWrite_iff_age_over_day :
    (∀ (cl ts : ℤ) (a : String) (c : ℚ),
      (staleWrite cl ts a c = some (a, c, cl) ↔ 86400 < cl - ts) ∧
      (staleWrite cl ts a c = none ↔ cl - ts ≤ 86400)) ∧
    staleWrite 86400 0 "EUR" 1 = none ∧
    staleWrite 86401 0 "EUR" 1 = some ("EUR", 1, 86401) := by
  refine ⟨fun cl ts a c => ?_, ?_, ?_⟩
  · unfold staleWrite
    split_ifs with h
    · exact ⟨⟨fun _ => by omega, fun _ => rfl⟩,
        ⟨fun hn => by simp at hn, fun hle => absurd hle (by omega)⟩⟩
    · exact ⟨⟨fun hn => by simp at hn, fun hlt => absurd hlt (by omega)⟩,
        ⟨fun _ => by omega, fun _ => rfl⟩⟩
  · norm_num [staleWrite]
  · norm_num [staleWrite]

/-- C5: fetching a table whose serialization — hence whose fingerprint —
matches the one held in `PollState` classifies the cycle as "no change":
the cycle raises nothing (its no-change branch performs no per-currency
arithmetic), no per-currency detail is rendered, `prev_hash`/`prev_quote`
are left exactly as the previous cycle stored them, and the iteration only
waits for the next poll.  Instantiating `qs` with the previous cycle's own
table gives the spec scenario of an identical refetch. -/
theorem monitorCycle_identical_refetch_no_change :
    ∀ (i now qt : ℚ) (qs : List (String × ℚ)),
      monitorCycle i now (some ⟨fingerprint qs, qs⟩) qt qs =
        .ok (some ⟨fingerprint qs, qs⟩,
          { firstRender := [], changeRender := [], changed := false,
            waited := some (wait_time i now qt) }) := by
  intro i now qt qs
  simp [monitorCycle]

/-- A Rate Store used for the batch-abort examples: currency `AAA` has a
numeric zero prior rate (so its iteration raises `DivisionByZero`), the
others are ordinary entries. -/
def exampleStore : Store :=
  [("AAA", .asDecimal 0, 0), ("BBB", .asDecimal 2, 0), ("CCC", .asDecimal 4, 0)]

/-- C6, counterexample: in the batch `USDAAA, USDBBB` the first currency
raises `DivisionByZero` (stored prior rate is a numeric zero), and
`get_rates` returns a single error — the second currency, which on its own
processes fine (second conjunct), is never evaluated or rendered.  A failure
on one currency does abort the rest of the batch. -/
theorem get_rates_aborts_batch :
    get_rates exampleStore 1000 1 [("USDAAA", 1), ("USDBBB", 3)] =
      .error .divisionError ∧
    processOne exampleStore 1000 1 "USDBBB" 3 =
      .ok { abbr := "BBB", in_usd := 1/3, in_for := 3, usd_buy := 101/300,
            for_sell := 300/101, pct := -50, col := .strengthened,
            write := none } := by
  constructor
  · have h1 : lastThree "USDAAA" = "AAA" := by decide
    simp only [get_rates, processOne, h1, dynamo_query, exampleStore, List.find?]
    norm_num [changeOf, change_pct, old_rate, isSentinelLiteral, decimalOf]
  · have h1 : lastThree "USDBBB" = "BBB" := by decide
    have h2 : decide ("AAA" = "BBB") = false := by decide
    simp only [processOne, h1, dynamo_query, exampleStore, List.find?, h2]
    norm_num [changeOf, change_pct, old_rate, isSentinelLiteral, decimalOf,
      usd_spread, for_spread, staleWrite, classifyLambda]

/-- C6, amended: the per-currency loop of `get_rates` has no per-entry
exception handler, so a `DivisionByZero` (or any modelled error) raised
while processing one currency aborts the whole batch: whatever currencies
follow the failing entry, the loop's result is that single error and none of
them is evaluated or rendered. -/
theorem get_rates_error_propagates (store : Store) (cl : ℤ) (sp : ℚ)
    (pre : List (String × ℚ)) (exch : String) (cur : ℚ)
    (post : List (String × ℚ)) (e : Err)
    (hpre : ∀ p ∈ pre, ∃ r, processOne store cl sp p.1 p.2 = .ok r)
    (hfail : processOne store cl sp exch cur = .error e) :
    get_rates store cl sp (pre ++ (exch, cur) :: post) = .error e := by
  induction pre with
  | nil => simp only [List.nil_append, get_rates, hfail]
  | cons hd tl ih =>
      obtain ⟨a, b⟩ := hd
      obtain ⟨r, hr⟩ := hpre (a, b) (List.mem_cons_self _ _)
      have htl := ih fun p hp => hpre p (List.mem_cons_of_mem _ hp)
      simp only [List.cons_append, get_rates, hr, List.append_eq, htl]

/-- C6, witness: a successful currency before the failing one, and another
after it; the batch still collapses to the single error. -/
theorem get_rates_error_propagates_witness :
    get_rates exampleStore 1000 1
      [("USDBBB", 3), ("USDAAA", 1), ("USDCCC", 5)] = .error .divisionError := by
  have h := get_rates_error_propagates exampleStore 1000 1
    [("USDBBB", 3)] "USDAAA" 1 [("USDCCC", 5)] .divisionError
    (by
      intro p hp
      simp only [List.mem_singleton] at hp
      subst hp
      refine ⟨{ abbr := "BBB", in_usd := 1/3, in_for := 3, usd_buy := 101/300,
                for_sell := 300/101, pct := -50, col := .strengthened,
                write := none }, ?_⟩
      have h1 : lastThree "USDBBB" = "BBB" := by decide
      have h2 : decide ("AAA" = "BBB") = false := by decide
      simp only [processOne, h1, dynamo_query, exampleStore, List.find?, h2]
      norm_num [changeOf, change_pct, old_rate, isSentinelLiteral, decimalOf,
        usd_spread, for_spread, staleWrite, classifyLambda])
    (by
      have h1 : lastThree "USDAAA" = "AAA" := by decide
      simp only [processOne, h1, dynamo_query, exampleStore, List.find?]
      norm_num [changeOf, change_pct, old_rate, isSentinelLiteral, decimalOf])
  simpa using h

/-- C7, counterexample: with a Rate Store holding no item for `JPY`, the
read does not degrade to the sentinel: `dynamo_query` raises (`KeyError` on
`response['Item']`), the Change Classifier never runs, and `get_rates`
propagates the exception instead of returning a result for the currency. -/
theorem dynamo_query_missing_key_raises :
    dynamo_query [("EUR", .asDecimal (9/10), 0)] "JPY" = .error .storeReadError ∧
    get_rates [("EUR", .asDecimal (9/10), 0)] 0 1 [("USDJPY", 110)] =
      .error .storeReadError := by
  constructor
  · rfl
  · rfl

/-- C7, amended: a Rate Store read that fails or finds no item raises an
uncaught exception out of `dynamo_query`; `get_rates` propagates it, so the
currency gets no classification and the rendering path aborts — the
sentinel substitution applies only to a successfully read rate equal to the
string `'0.0'`. -/
theorem get_rates_read_failure_propagates (store : Store) (cl : ℤ) (sp : ℚ)
    (exch : String) (cur : ℚ) (rest : List (String × ℚ)) (e : Err)
    (h : dynamo_query store (lastThree exch) = .error e) :
    get_rates store cl sp ((exch, cur) :: rest) = .error e := by
  simp only [get_rates, processOne, h]

/-- C7, witness: the spec's own scenario, a store with no `JPY` item. -/
theorem get_rates_read_failure_propagates_witness :
    get_rates [("EUR", .asDecimal (9/10), 0)] 0 1 [("USDJPY", 110)] =
      .error .storeReadError :=
  get_rates_read_failure_propagates [("EUR", .asDecimal (9/10), 0)] 0 1
    "USDJPY" 110 [] .storeReadError (by rfl)

/-- No integer times an integer power of ten equals `400/7`: the change
magnitude the monitor computes for rates `3` against `7` has no finite
decimal representation at all, let alone one with six significant digits. -/
theorem mul_zpow_ten_ne (m e : ℤ) : (m : ℚ) * 10 ^ e ≠ 400 / 7 := by
  intro h
  have hp : Prime (7:ℤ) := by norm_num
  rcases le_or_lt 0 e with he | he
  · lift e to ℕ using he
    rw [zpow_natCast] at h
    have h2 : (m * 10 ^ e * 7 : ℤ) = 400 := by
      have hq : ((m * 10 ^ e * 7 : ℤ) : ℚ) = 400 := by push_cast; rw [h]; norm_num
      exact_mod_cast hq
    have hdvd : (7:ℤ) ∣ 400 := ⟨m * 10 ^ e, by linarith⟩
    norm_num at hdvd
  · obtain ⟨k, rfl⟩ : ∃ k : ℕ, e = -((k : ℤ) + 1) := ⟨(-e - 1).toNat, by omega⟩
    have hke : (-((k : ℤ) + 1)) = -(((k + 1 : ℕ) : ℤ)) := by push_cast; ring
    rw [hke, zpow_neg, zpow_natCast] at h
    have hne : ((10:ℚ) ^ (k + 1)) ≠ 0 := by positivity
    have h2 : (m : ℚ) * 7 = 400 * 10 ^ (k + 1) := by
      field_simp at h
      linarith
    have h3 : (m * 7 : ℤ) = 400 * 10 ^ (k + 1) := by exact_mod_cast h2
    have hdvd : (7:ℤ) ∣ 400 * 10 ^ (k + 1) := ⟨m, by linarith⟩
    rcases hp.dvd_mul.mp hdvd with h4 | h4
    · norm_num at h4
    · have h5 : (7:ℤ) ∣ 10 := hp.dvd_of_dvd_pow h4
      norm_num at h5

/-- C8, counterexample: the monitor variant's change magnitude is not a
six-significant-digit decimal value — for current rate `3` against previous
rate `7` it is exactly `400/7`, which no `m · 10^e` equals — so it is not
the case that all rate arithmetic in every variant is performed in
fixed-precision decimal with six significant digits. -/
theorem monitorDelta_not_six_digit_decimal :
    monitorDelta 3 7 = 400 / 7 ∧ ¬ IsSixDigitDecimal (monitorDelta 3 7) := by
  have hd : monitorDelta 3 7 = 400 / 7 := by
    unfold monitorDelta
    rw [abs_of_nonneg (by norm_num)]
    norm_num
  refine ⟨hd, ?_⟩
  rw [hd]
  rintro ⟨m, e, _, hme⟩
  exact mul_zpow_ten_ne m e hme.symm

/-- C8, amended: only the DynamoDB Lambda variants fix six-significant-digit
decimal precision (`getcontext().prec = 6`); the console monitor performs
its rate arithmetic in raw binary floating point with no decimal
normalization, and its change magnitude for rates `3` against `7` is exactly
`|(1 - 3/7)·100| = 400/7`, equal to no integer multiple of a power of ten
and so to no fixed-precision decimal value of any significand width. -/
theorem monitorDelta_exact_value_not_decimal :
    monitorDelta 3 7 = 400 / 7 ∧
    ∀ m e : ℤ, (m : ℚ) * 10 ^ e ≠ monitorDelta 3 7 := by
  have hd : monitorDelta 3 7 = 400 / 7 := by
    unfold monitorDelta
    rw [abs_of_nonneg (by norm_num)]
    norm_num
  exact ⟨hd, fun m e => hd ▸ mul_zpow_ten_ne m e⟩

/-- C9, counterexample: with `interval = 60` minutes, batch timestamp `0`
and wall clock `1830` seconds, the claimed delay is
`|60 - 1830/60| = 29.5` minutes, but the code's
`int(abs(interval - quote_delay))` waits `29` minutes. -/
theorem wait_time_truncates :
    wait_time 60 1830 0 = 29 ∧
    |(60:ℚ) - (1830 - 0) / 60| = 59 / 2 ∧ ((29:ℚ) ≠ 59 / 2) := by
  refine ⟨?_, by norm_num, by norm_num⟩
  unfold wait_time quote_delay
  rw [show (60:ℚ) - (1830 - 0) / 60 = 59 / 2 by norm_num,
    abs_of_nonneg (by norm_num : (0:ℚ) ≤ 59 / 2)]
  norm_num [Int.floor_eq_iff]

/-- C9, amended: every polling cycle other than the first that completes
(raises nothing) waits `wait_time = int(abs(interval - (now -
batch_as_of)/60))` minutes — the floor of the claimed absolute difference, a
whole number of minutes within one minute below the exact value, rather
than the exact value itself. -/
theorem monitorCycle_wait_is_floor :
    (∀ (i now qt : ℚ) (st : PollState) (qs : List (String × ℚ))
        (res : Option PollState × CycleOut),
      monitorCycle i now (some st) qt qs = .ok res →
        res.2.waited = some (wait_time i now qt)) ∧
    ∀ i now qt : ℚ,
      ((wait_time i now qt : ℚ) ≤ |i - (now - qt) / 60| ∧
        |i - (now - qt) / 60| < (wait_time i now qt : ℚ) + 1) := by
  constructor
  · intro i now qt st qs res h
    unfold monitorCycle at h
    dsimp only at h
    split_ifs at h
    · cases hcl : changeRenderLines st.prev_quote qs with
      | error e => rw [hcl] at h; exact absurd h (by simp)
      | ok ls =>
          rw [hcl] at h
          simp only [Except.ok.injEq] at h
          rw [← h]
    · simp only [Except.ok.injEq] at h
      rw [← h]
  · intro i now qt
    unfold wait_time quote_delay
    exact ⟨Int.floor_le _, Int.lt_floor_add_one _⟩

/-- C10, counterexample: the first-pass behavior does not hold for every
fetched quote table.  On a table holding a zero rate the `1/cur_rate` of
line 110 raises `ZeroDivisionError` mid-loop: the remaining pairs are not
printed and the loop never proceeds to the next fetch — here the second
pair `USDGBP` is lost and the cycle collapses to the uncaught exception. -/
theorem monitorCycle_first_pass_zero_rate :
    monitorCycle 60 1830 none 0 [("USDEUR", 0), ("USDGBP", 2)] =
      .error .zeroDivisionError := by
  rfl

/-- C10, amended: on the first pass, for every fetched quote table whose
rates are all nonzero, the monitor initializes `prev_hash`/`prev_quote` to
the fetched batch, prints each pair in both quote directions (`1/cur_rate`
and `cur_rate`) with no change percentage or classification (the first-pass
lines carry none, and the change-detail block is empty), and `continue`s
straight to the next fetch without the inter-poll wait; a zero rate instead
raises `ZeroDivisionError` at the `1/cur_rate` print and kills the loop. -/
theorem monitorCycle_first_pass (i now qt : ℚ) (qs : List (String × ℚ))
    (hnz : ∀ p ∈ qs, p.2 ≠ 0) :
    monitorCycle i now none qt qs =
      .ok (some ⟨fingerprint qs, qs⟩,
        { firstRender := qs.map (fun e => (e.1, 1 / e.2, e.2)),
          changeRender := [], changed := false, waited := none }) := by
  have hfr : ∀ (l : List (String × ℚ)), (∀ p ∈ l, p.2 ≠ 0) →
      firstRenderLines l = .ok (l.map (fun e => (e.1, 1 / e.2, e.2))) := by
    intro l
    induction l with
    | nil => intro _; rfl
    | cons hd tl ih =>
        intro hl
        obtain ⟨a, b⟩ := hd
        have hb : b ≠ 0 := hl (a, b) (List.mem_cons_self _ _)
        have htl := ih fun p hp => hl p (List.mem_cons_of_mem _ hp)
        simp only [firstRenderLines, if_neg hb, htl, List.map_cons]
  unfold monitorCycle
  rw [hfr qs hnz]

/-- C10, witness: the single-pair table `USDEUR ↦ 0.9`. -/
theorem monitorCycle_first_pass_witness :
    monitorCycle 60 1830 none 0 [("USDEUR", 9/10)] =
      .ok (some ⟨fingerprint [("USDEUR", 9/10)], [("USDEUR", 9/10)]⟩,
        { firstRender := [("USDEUR", 10/9, 9/10)],
          changeRender := [], changed := false, waited := none }) := by
  have h := monitorCycle_first_pass 60 1830 0 [("USDEUR", 9/10)]
    (by
      intro p hp
      simp only [List.mem_singleton] at hp
      subst hp
      norm_num)
  rw [h]
  norm_num

end CurrencyMonitor
